import Mathlib

/-!
# Verification of the "bring-ideas-to-life" front-end generator

Shallow embedding of the request assembly of the application, response parsing,
upload validation, history management, and import/export logic, together
with theorems settling the specification claims.

JavaScript runtime values that flow through the untyped parts of the code
(fields of objects produced by `JSON.parse`) are modelled by the inductive
type `Js`.  The builtins `JSON.parse`/`JSON.stringify`, `crypto.randomUUID`,
`Date.now` and the network are not code of this repository; they are
modelled as explicit parameters (a parse function, fresh-id strings, epoch
numbers, request/response outcomes) so that every repository function stays
a pure, executable Lean definition.
-/

/-- A JavaScript value as it can appear at run time in the untyped paths of
the application: the results of `JSON.parse` (null, booleans, numbers,
strings, arrays, objects) plus `undefined`, which property access on a
non-object or a missing key produces. -/
inductive Js where
  | undefined : Js
  | null : Js
  | bool (b : Bool) : Js
  | num (q : ℚ) : Js
  | str (s : String) : Js
  | arr (elems : List Js) : Js
  | obj (fields : List (String × Js)) : Js

/-- JavaScript truthiness: `undefined`, `null`, `false`, `0` and `""` are
falsy; every other value (including every array and object) is truthy. -/
def Js.truthy : Js → Bool
  | .undefined => false
  | .null => false
  | .bool b => b
  | .num q => q ≠ 0
  | .str s => s ≠ ""
  | .arr _ => true
  | .obj _ => true

/-- Property read `v[k]` as it behaves on a non-null value (and as the
object-spread `{...v}` behaves on any value, null included): the value of the field on an object that has the key, `undefined` otherwise.  Property
access on `null` throws in JavaScript; the one place the repository can
perform it (`parsed.html` when the model returns the JSON text "null") is
modelled explicitly at that call site. -/
def Js.get : Js → String → Js
  | .obj fields, k =>
    match fields.lookup k with
    | some v => v
    | none => .undefined
  | _, _ => .undefined

/-- The JavaScript short-circuit `a || b`: `a` when truthy, else `b`. -/
def jsOr (a b : Js) : Js :=
  if a.truthy then a else b

/-- Whether a value is a string. -/
def Js.isStr : Js → Bool
  | .str _ => true
  | _ => false

/-- JavaScript strict equality `===` as it behaves on the values compared in
this application.  Primitives compare by value.  Objects and arrays compare
by reference; every composite value reaching a `===` in this code base (an
id taken from a freshly parsed import against ids stored earlier) is a fresh
reference, so the comparison is `false` for composite operands. -/
def jsStrictEq : Js → Js → Bool
  | .undefined, .undefined => true
  | .null, .null => true
  | .bool a, .bool b => a == b
  | .num a, .num b => a == b
  | .str a, .str b => a == b
  | _, _ => false

/-! ## src/services/gemini.ts -/

/-- The `GEMINI_MODEL` constant of src/services/gemini.ts. -/
def GEMINI_MODEL : String := "gemini-3-pro-preview"

/-- The fixed system instruction sent with every generation request
(`const SYSTEM_INSTRUCTION` in src/services/gemini.ts, transcribed
verbatim; braces, double quotes, apostrophes and block-comment markers are
written with string escapes). -/
def SYSTEM_INSTRUCTION : String :=
  "You are an AI system that converts visual design inputs (images or PDFs) plus optional user instructions into a final front-end UI implementation.

Your job is to:

Analyze the visual input

Process the user\x27s written prompt

Merge BOTH into a final UI design

Generate code in the REQUESTED FRAMEWORK (React, Vue, or HTML)

Output a complete HTML document consumable by an iframe

You must ALWAYS follow the pipeline below in order:

🔵 STEP 0 — READ USER INPUT PROMPT

Before any processing, read the user’s text input (prompt).
User prompt can request:

style changes

color palette overrides

layout adjustments

responsiveness requirements

component interpretation hints

function indications (e.g. “this is a login form”)

themed redesign (“make it modern”, “use glassmorphism”, “dark mode”)

FRAMEWORK PREFERENCE (React, Vue, or HTML/CSS/JS)

You must obey the user prompt unless it conflicts with core generation rules.

Examples of valid user prompt interpretation:

“Make everything dark mode” → override detected colors

“Turn this sketch into a dashboard” → treat blocks as widgets

“Use modern UI, sharp cards” → change component style

“Please center content, add spacing” → adjust layout

User prompt is allowed to override:

colors

spacing

layout type (grid/flex)

component semantics

styling

But NOT allowed to override:

output format (JSON structure)

schema

pipeline steps

🔵 STEP 1 — VISUAL ANALYSIS (NO OUTPUT YET)

Analyze the uploaded image/PDF and detect:

semantic UI structure

visual grouping

element roles

spacing patterns

color palette

typography

relative positioning

Combine this understanding with the user’s text prompt.
Never output in this step.

🔵 STEP 2 — MERGED LAYOUT TREE

Generate a semantic layout tree combining:

A. What the image shows

AND

B. What the user asked for

Strict output schema:

\x7b
  \"layout\": \x7b
    \"type\": \"root\",
    \"children\": [
      \x7b
        \"type\": \"section\",
        \"role\": \"hero | header | grid | form | sidebar | footer | card | text-block | image-block\",
        \"props\": \x7b\x7d,
        \"children\": [...]
      \x7d
    ]
  \x7d,
  \"styles\": \x7b
    \"colors\": \x7b
      \"primary\": \"\",
      \"secondary\": \"\",
      \"background\": \"\",
      \"text\": \"\"
    \x7d,
    \"font\": \"\",
    \"spacing\": \x7b
      \"base\": 4,
      \"scale\": [4, 8, 12, 16, 24, 32]
    \x7d,
    \"overridesFromPrompt\": true | false
  \x7d
\x7d


Rules:

Always semantic

Never pixel-based

Combine user prompt + image understanding

Prefer clean, minimal tree

🔵 STEP 3 — CODE GENERATION

Generate the code based on the requested framework.

If REACT (Default):
Generate ONE React component named GeneratedUI.
Use Tailwind CSS classes.
Pure React JSX (no TS).
No external libs (other than default Lucide/Heroicons if absolutely needed, but prefer standard elements).

If VUE:
Generate a Vue 3 component object (Options API or Composition API) that can be mounted.
Use Tailwind CSS classes.

If HTML/CSS/JS:
Generate standard HTML with Tailwind classes.
Embed any necessary JS for interactivity inside <script> tags.

Rules for ALL frameworks:
Responsive
Clean layout
No comments
No extra components
No console logs

🔵 STEP 4 — GENERATE OUTPUT HTML

Embed the component inside working HTML appropriate for the framework.

--- OPTION A: REACT SCAFFOLD ---
<!DOCTYPE html>
<html>
<head>
  <meta charset=\"UTF-8\" />
  <script src=\"https://cdn.tailwindcss.com\"></script>
  <script src=\"https://unpkg.com/react@18/umd/react.development.js\"></script>
  <script src=\"https://unpkg.com/react-dom@18/umd/react-dom.development.js\"></script>
  <script src=\"https://unpkg.com/@babel/standalone/babel.min.js\"></script>
</head>
<body class=\"bg-white\">
  <div id=\"root\"></div>
  <script type=\"text/babel\">
    \x2f* PLACE GENERATED REACT COMPONENT HERE *\x2f
    ReactDOM.createRoot(document.getElementById(\x27root\x27)).render(<GeneratedUI />);
  </script>
</body>
</html>

--- OPTION B: VUE SCAFFOLD ---
<!DOCTYPE html>
<html>
<head>
  <meta charset=\"UTF-8\" />
  <script src=\"https://cdn.tailwindcss.com\"></script>
  <script src=\"https://unpkg.com/vue@3/dist/vue.global.js\"></script>
</head>
<body class=\"bg-white\">
  <div id=\"app\"></div>
  <script>
    const \x7b createApp, ref, reactive, onMounted \x7d = Vue;
    \x2f* PLACE GENERATED VUE APP DEFINITION HERE e.g. createApp(\x7b...\x7d).mount(\x27#app\x27) *\x2f
  </script>
</body>
</html>

--- OPTION C: HTML SCAFFOLD ---
<!DOCTYPE html>
<html>
<head>
  <meta charset=\"UTF-8\" />
  <script src=\"https://cdn.tailwindcss.com\"></script>
</head>
<body class=\"bg-white\">
   <!-- PLACE GENERATED HTML BODY CONTENT HERE -->
   <!-- PLACE GENERATED SCRIPT TAGS HERE -->
</body>
</html>

Rules:
MUST be a valid standalone HTML file
MUST run inside <iframe srcDoc>
MUST compile cleanly

🔵 STEP 5 — FINAL JSON RESPONSE

Return:

\x7b
  \"name\": \"Generated Interface\",
  \"html\": \"<FULL HTML STRING>\",
  \"layout\": \x7b ... \x7d,
  \"metadata\": \x7b
    \"colors\": \x7b...\x7d,
    \"font\": \"\",
    \"fromUserPrompt\": \"<USER PROMPT>\",
    \"timestamp\": \"<ISO DATETIME>\",
    \"framework\": \"react | vue | html\"
  \x7d
\x7d

🔥 HARD CONSTRAINTS

Never output reasoning

Never output markdown

Never output code blocks

Never output explanations

Only final JSON

Always deterministic

Always valid HTML"

/-- One entry of the `parts` array of a `generateContent` request: either a
text part or an inline-data part carrying base64 bytes and a MIME type. -/
inductive RequestPart where
  | text (s : String) : RequestPart
  | inlineData (data : String) (mimeType : String) : RequestPart
deriving DecidableEq, Repr

/-- The observable request issued by `ai.models.generateContent` in
`bringToLife`: the model name, the ordered parts list, and the config
fields (`systemInstruction`, `temperature`, `responseMimeType`). -/
structure GenRequest where
  model : String
  parts : List RequestPart
  systemInstruction : String
  temperature : ℚ
  responseMimeType : String
deriving DecidableEq, Repr

/-- `interface GenerationResult` — at run time the four fields hold
whatever JavaScript values the defaulting expressions produce, so they are
modelled as `Js` values (the TypeScript annotations `html: string` etc. are
not enforced dynamically). -/
structure GenerationResult where
  html : Js
  name : Js
  layout : Js
  metadata : Js

/-- Outcome of the external `generateContent` network call: either a
response whose `.text` is an optional string, or a thrown error. -/
inductive ModelOutcome where
  | success (respText : Option String) : ModelOutcome
  | failure (err : String) : ModelOutcome

/-- Truthiness of a possibly-absent JavaScript string argument: an optional
string parameter is truthy exactly when it is supplied and non-empty. -/
def optTruthy : Option String → Bool
  | some s => s ≠ ""
  | none => false

/-- The default prompt chosen when the user prompt is falsy:
`fileBase64 ? "Analyze this ..." : "Create a demo app ..."`. -/
def defaultPrompt (fileBase64 : Option String) : String :=
  if optTruthy fileBase64 then
    "Analyze this image/document and generate a production-ready interface following the pipeline."
  else
    "Create a demo app that shows off your capabilities."

/-- The framework instruction appended to the user prompt:
```finalPrompt = finalPrompt + "\n\nIMPORTANT: Generate the code using the " + framework.toUpperCase() + " framework. ..."```
`String.toUpperCase` is modelled by `String.toUpper`; the two agree on the
ASCII framework tags ("react", "vue", "html") this application passes. -/
def frameworkSuffix (framework : String) : String :=
  "\n\nIMPORTANT: Generate the code using the " ++ framework.toUpper ++
    " framework. Use the appropriate HTML scaffold for " ++ framework ++
    " provided in Step 4."

/-- The text part actually sent: the user prompt when truthy, otherwise the
file-dependent default, with the framework instruction appended. -/
def finalPromptOf (prompt : String) (fileBase64 : Option String)
    (framework : String) : String :=
  (if prompt = "" then defaultPrompt fileBase64 else prompt) ++
    frameworkSuffix framework

/-- The `parts` array assembled by `bringToLife`: the text part, then the
inline-data part exactly when `fileBase64 && mimeType` is truthy. -/
def bringToLifeParts (prompt : String) (fileBase64 mimeType : Option String)
    (framework : String) : List RequestPart :=
  RequestPart.text (finalPromptOf prompt fileBase64 framework) ::
    (match fileBase64, mimeType with
     | some b, some m =>
       if b ≠ "" ∧ m ≠ "" then [RequestPart.inlineData b m] else []
     | _, _ => [])

/-- `const text = response.text || "{}"` — an absent or empty response text
is replaced by the two-character object literal. -/
def coerceText (respText : Option String) : String :=
  match respText with
  | some t => if t = "" then "\x7b\x7d" else t
  | none => "\x7b\x7d"

/-- The fallback result built in the inner `catch`: the raw text wrapped in
a minimal HTML document, the name "Error", and empty layout/metadata. -/
def fallbackResult (text : String) : GenerationResult :=
  { html := Js.str ("<html><body><pre>" ++ text ++ "</pre></body></html>")
  , name := Js.str "Error"
  , layout := Js.obj []
  , metadata := Js.obj [] }

/-- The response-processing of `bringToLife`: parse the text as JSON; on
success read `html`/`name`/`layout`/`metadata` with `||`-defaults; any
exception inside the `try` (a parse error, or the `TypeError` that
`parsed.html` raises when the text parses to JSON `null`) lands in the
`catch` and produces `fallbackResult`.  `JSON.parse` is a browser builtin,
passed in as `jsonParse`. -/
def bringToLifeParse (jsonParse : String → Option Js) (text : String) :
    GenerationResult :=
  match jsonParse text with
  | some Js.null => fallbackResult text
  | some parsed =>
      { html := jsOr (parsed.get "html") (Js.str "<!-- Failed to generate HTML -->")
      , name := jsOr (parsed.get "name") (Js.str "Generated UI")
      , layout := jsOr (parsed.get "layout") (Js.obj [])
      , metadata := jsOr (parsed.get "metadata") (Js.obj []) }
  | none => fallbackResult text

/-- `bringToLife`: assembles exactly one request, sends it, and either
returns the processed result or rethrows the network error (the outer
`catch` logs and rethrows).  Returns the list of issued requests together
with the `Except`-modelled outcome. -/
def bringToLife (prompt : String) (fileBase64 mimeType : Option String)
    (framework : String) (jsonParse : String → Option Js)
    (outcome : ModelOutcome) : List GenRequest × Except String GenerationResult :=
  let req : GenRequest :=
    { model := GEMINI_MODEL
    , parts := bringToLifeParts prompt fileBase64 mimeType framework
    , systemInstruction := SYSTEM_INSTRUCTION
    , temperature := 0.2
    , responseMimeType := "application/json" }
  match outcome with
  | .success respText =>
    ([req], Except.ok (bringToLifeParse jsonParse (coerceText respText)))
  | .failure err => ([req], Except.error err)

/-! ## Upload validation — `handleFile` in src/unnamed/part_001 (the
current `InputArea` with prompt form and framework selector) and
src/unnamed/part_002 (the earlier variant that generates immediately
after reading).  Both share the same validation code. -/

/-- Character-list comparison underlying `jsStartsWith`: does the second
list begin with the first? -/
def charsLeadWith : List Char → List Char → Bool
  | [], _ => true
  | _ :: _, [] => false
  | p :: ps, c :: cs => (p == c) && charsLeadWith ps cs

/-- `s.startsWith(pat)` of JavaScript strings (executable down to the
kernel, unlike `String.startsWith`, so that concrete validation runs can
be checked by `decide`). -/
def jsStartsWith (s pat : String) : Bool := charsLeadWith pat.data s.data

/-- The `type`, `size` and `name` properties of a browser `File`. -/
structure JsFile where
  type : String
  size : Nat
  name : String
deriving DecidableEq, Repr

/-- `const validTypes = [...]` — declared at the top of `handleFile`. -/
def validTypes : List String :=
  ["image/jpeg", "image/png", "image/webp", "image/heic", "application/pdf"]

/-- `const MAX_SIZE_MB = 10` -/
def MAX_SIZE_MB : Nat := 10

/-- Where `handleFile` ends up: an early `setError(...); return` for the
type or size check, or falling through to `FileReader.readAsDataURL`. -/
inductive UploadOutcome where
  | rejectedType : UploadOutcome
  | rejectedSize : UploadOutcome
  | startReading : UploadOutcome
deriving DecidableEq, Repr

/-- The validation in `handleFile`: the type check uses
`file.type.startsWith` on the `image/` literal / equality with the
`application/pdf` literal
(the `validTypes` list above is declared but never consulted), then the
size check compares against `MAX_SIZE_MB * 1024 * 1024` bytes.  The size
the `toFixed(1)` float formatting of the size error message is not modelled; outcomes
carry which branch fired. -/
def handleFile (f : JsFile) : UploadOutcome :=
  let isImage := jsStartsWith f.type "image/"
  let isPdf := f.type == "application/pdf"
  if !isImage && !isPdf then .rejectedType
  else if f.size > MAX_SIZE_MB * 1024 * 1024 then .rejectedSize
  else .startReading

/-- Result of the `FileReader` read that follows a successful validation. -/
inductive ReadOutcome where
  | success (base64 : String) : ReadOutcome
  | failure : ReadOutcome
deriving DecidableEq, Repr

/-- The `{ base64, mimeType }` payload handed to `onGenerate`. -/
structure FileData where
  base64 : String
  mimeType : String
deriving DecidableEq, Repr

/-- The `handleFile` continuation of part_002: when validation passes and the
read succeeds, `onGenerate("", file, { base64, mimeType: file.type })` is
invoked; the returned value is the argument triple of that invocation, `none`
when no generation call happens. -/
def handleFileThenGenerate (f : JsFile) (read : ReadOutcome) :
    Option (String × JsFile × FileData) :=
  match handleFile f with
  | .startReading =>
    match read with
    | .success b64 => some ("", f, { base64 := b64, mimeType := f.type })
    | .failure => none
  | _ => none

/-- The `handleFile` continuation of part_001: when validation passes and the
read succeeds, the file is stored as `selectedFile` (generation happens
later, from `handleGenerateClick`); `none` when nothing is selected. -/
def handleFileSelect (f : JsFile) (read : ReadOutcome) :
    Option (JsFile × FileData) :=
  match handleFile f with
  | .startReading =>
    match read with
    | .success b64 => some (f, { base64 := b64, mimeType := f.type })
    | .failure => none
  | _ => none

/-- The `handleGenerateClick` of part_001: with no selected file it returns
without generating; otherwise it invokes
`onGenerate(prompt, selectedFile.file, {base64, mimeType}, framework)`. -/
def handleGenerateClick (selectedFile : Option (JsFile × FileData))
    (prompt : String) (framework : String) :
    Option (String × JsFile × FileData × String) :=
  match selectedFile with
  | none => none
  | some (f, fd) => some (prompt, f, fd, framework)

/-! ## src/App.tsx — Creation store and handlers. -/

/-- A `Creation` as it exists at run time.  The duck-typed fields are `Js`
values (imports and fixtures can put any JSON value in them); `timestamp`
holds the epoch value of the stored `Date`. -/
structure Creation where
  id : Js
  name : Js
  html : Js
  layout : Js
  metadata : Js
  originalImage : Js
  timestamp : Nat

/-- The pieces of `App` component state the claims are about. -/
structure AppState where
  activeCreation : Option Creation
  isGenerating : Bool
  history : List Creation

/-- `imageBase64` as computed at the top of the try block of
`handleGenerate`:
the pre-loaded data when `InputArea` supplied it, else the
`fileToBase64(file)` fallback read when only a `File` was passed. -/
def pickedBase64 (fileData : Option FileData) (file : Option JsFile)
    (fileReadBase64 : String) : Option String :=
  match fileData, file with
  | some fd, _ => some fd.base64
  | none, some _ => some fileReadBase64
  | none, none => none

/-- `mimeType` as computed alongside `imageBase64`: the pre-loaded MIME
type, else `file.type.toLowerCase()`. -/
def pickedMime (fileData : Option FileData) (file : Option JsFile) :
    Option String :=
  match fileData, file with
  | some fd, _ => some fd.mimeType
  | none, some f => some f.type.toLower
  | none, none => none

/-- The `newCreation` record built when the generation result has truthy
html: fresh random id, name defaulted to the file name (or "Generated UI"
with no file), the html/layout/metadata of the result, a data-URI of the input
when one was sent, and the current time. -/
def generatedCreation (result : GenerationResult) (file : Option JsFile)
    (imageBase64 mimeType : Option String) (freshId : String) (now : Nat) :
    Creation :=
  { id := Js.str freshId
  , name := jsOr result.name
      (Js.str (match file with | some f => f.name | none => "Generated UI"))
  , html := result.html
  , layout := result.layout
  , metadata := result.metadata
  , originalImage :=
      match imageBase64, mimeType with
      | some b, some m =>
        if b ≠ "" ∧ m ≠ "" then Js.str ("data:" ++ m ++ ";base64," ++ b)
        else Js.undefined
      | _, _ => Js.undefined
  , timestamp := now }

/-- `handleGenerate` as a state transition.  Explicit parameters model the
environment: the `jsonParse` builtin, the network `outcome`, the base64
produced by the `fileToBase64` fallback read, the `crypto.randomUUID()`
result `freshId`, and `new Date()` as `now`.  The transient
`setIsGenerating(true)`/`setActiveCreation(null)` at entry are superseded
by the final state of the handler, which is what the record captures; the
returned `Bool` records whether the blocking `alert` in the `catch`
fired. -/
def handleGenerate (st : AppState) (promptText : String) (file : Option JsFile)
    (fileData : Option FileData) (framework : String)
    (jsonParse : String → Option Js) (outcome : ModelOutcome)
    (fileReadBase64 : String) (freshId : String) (now : Nat) :
    AppState × Bool :=
  match (bringToLife promptText (pickedBase64 fileData file fileReadBase64)
      (pickedMime fileData file) framework jsonParse outcome).2 with
  | Except.ok result =>
    if result.html.truthy then
      ({ activeCreation := some (generatedCreation result file
            (pickedBase64 fileData file fileReadBase64) (pickedMime fileData file)
            freshId now)
       , isGenerating := false
       , history := generatedCreation result file
            (pickedBase64 fileData file fileReadBase64) (pickedMime fileData file)
            freshId now :: st.history }, false)
    else
      ({ activeCreation := none, isGenerating := false, history := st.history },
        false)
  | Except.error _ =>
    ({ activeCreation := none, isGenerating := false, history := st.history },
      true)

/-- Whether a value is `undefined`. -/
def Js.isUndefined : Js → Bool
  | .undefined => true
  | _ => false

/-- Injective stand-in for the ISO rendering `Date.prototype.toJSON` that
`JSON.stringify` applies to the `timestamp` field.  The claims never
inspect the rendered timestamp, only that it is a string the re-import
normalizes. -/
def isoOfMillis (n : Nat) : String := toString n

/-- The JSON value `handleExportJSON` (src/unnamed/part_003) writes to the
downloaded file: `JSON.stringify(creation, null, 2)` serializes the
fields of the creation in insertion order, drops `undefined`-valued properties
(`originalImage` when absent, `layout`/`metadata` on imports that lacked
them), and renders the `Date` as a string.  The textual rendering and its
inverse are the `JSON.stringify`/`JSON.parse` builtin pair; theorems that
need the round-trip law take it as a hypothesis on the abstract parse
function. -/
def handleExportJSON (c : Creation) : Js :=
  Js.obj
    (([("id", c.id), ("name", c.name), ("html", c.html),
       ("layout", c.layout), ("metadata", c.metadata),
       ("originalImage", c.originalImage)].filter
        (fun kv => !kv.2.isUndefined)) ++
     [("timestamp", Js.str (isoOfMillis c.timestamp))])

/-- The `importedCreation` record built by `handleImportFile` from the
parsed file: the spread of the fields of the parsed object with the timestamp
normalized through `new Date(parsed.timestamp || Date.now())` and the id
defaulted to a fresh `crypto.randomUUID()` when falsy. -/
def importedCreation (parsed : Js) (freshId : String) (dateOfJs : Js → Nat)
    (now : Nat) : Creation :=
  { id := jsOr (parsed.get "id") (Js.str freshId)
  , name := parsed.get "name"
  , html := parsed.get "html"
  , layout := parsed.get "layout"
  , metadata := parsed.get "metadata"
  , originalImage := parsed.get "originalImage"
  , timestamp :=
      if (parsed.get "timestamp").truthy then dateOfJs (parsed.get "timestamp")
      else now }

/-- `handleImportFile` as a state transition on `(history, activeCreation)`
after the text of the selected file is read.  `freshId` models
`crypto.randomUUID()`, `dateOfJs` the `new Date(x)` builtin on a truthy
argument and `now` `Date.now()`.  The returned `Bool` records whether an
alert fired.  A file whose text parses to JSON `null` hits the `TypeError`
of `parsed.html` inside the same `try` and alerts. -/
def handleImportFile (st : AppState) (fileText : String)
    (jsonParse : String → Option Js) (freshId : String)
    (dateOfJs : Js → Nat) (now : Nat) : AppState × Bool :=
  match jsonParse fileText with
  | none => (st, true)
  | some Js.null => (st, true)
  | some parsed =>
    if (parsed.get "html").truthy && (parsed.get "name").truthy then
      ({ st with
           history :=
             if st.history.any (fun c =>
                  jsStrictEq c.id (importedCreation parsed freshId dateOfJs now).id)
             then st.history
             else importedCreation parsed freshId dateOfJs now :: st.history
         , activeCreation := some (importedCreation parsed freshId dateOfJs now) },
        false)
    else (st, true)

/-- Outcome of one example-fixture fetch inside `initHistory`. -/
inductive FetchOutcome where
  | ok (data : Js) : FetchOutcome
  | notOk : FetchOutcome
  | failed : FetchOutcome

/-- The creation built from one fetched fixture:
`{...data, timestamp: new Date(data.timestamp || Date.now()), id: data.id || crypto.randomUUID()}`. -/
def exampleCreation (data : Js) (freshId : String) (dateOfJs : Js → Nat)
    (now : Nat) : Creation :=
  { id := jsOr (data.get "id") (Js.str freshId)
  , name := data.get "name"
  , html := data.get "html"
  , layout := data.get "layout"
  , metadata := data.get "metadata"
  , originalImage := data.get "originalImage"
  , timestamp :=
      if (data.get "timestamp").truthy then dateOfJs (data.get "timestamp")
      else now }

/-- Whether the example-loading `try` block throws as a whole: a rejected
fetch / `res.json()` rejects `Promise.all`, and a fixture whose JSON is
`null` makes `data.timestamp` throw a `TypeError`; either way the `catch`
runs and `setHistory` is never called for the examples. -/
def seedFails (fetches : List FetchOutcome) : Bool :=
  fetches.any (fun f =>
    match f with
    | .failed => true
    | .ok Js.null => true
    | _ => false)

/-- The history produced by the example-seeding branch of `initHistory`:
each fetched fixture becomes a creation (a `!res.ok` response becomes
`null` and is filtered out); no de-duplication of ids is performed. -/
def seedHistoryFromExamples (fetches : List FetchOutcome)
    (freshIds : List String) (dateOfJs : Js → Nat) (now : Nat) :
    List Creation :=
  if seedFails fetches then []
  else
    (fetches.zip freshIds).filterMap (fun p =>
      match p.1 with
      | .ok d => some (exampleCreation d p.2 dateOfJs now)
      | _ => none)

/-- One saved history item revived on startup:
`{...item, timestamp: new Date(item.timestamp)}`. -/
def creationOfSavedItem (item : Js) (dateOfJs : Js → Nat) : Creation :=
  { id := item.get "id"
  , name := item.get "name"
  , html := item.get "html"
  , layout := item.get "layout"
  , metadata := item.get "metadata"
  , originalImage := item.get "originalImage"
  , timestamp := dateOfJs (item.get "timestamp") }

/-- `initHistory`: revive the persisted history when present and non-empty,
otherwise seed from the example fixtures.  A saved value that fails to
parse, is not an array (`.map` throws), or contains `null` items
(`item.timestamp` throws) leaves the loaded history empty via the `catch`. -/
def initHistory (savedRaw : Option String) (jsonParse : String → Option Js)
    (fetches : List FetchOutcome) (freshIds : List String)
    (dateOfJs : Js → Nat) (now : Nat) : List Creation :=
  let loaded : List Creation :=
    match savedRaw with
    | none => []
    | some s =>
      match jsonParse s with
      | some (Js.arr items) =>
        if items.any (fun it => match it with | Js.null => true | _ => false)
        then []
        else items.map (fun it => creationOfSavedItem it dateOfJs)
      | _ => []
  if loaded.length > 0 then loaded
  else seedHistoryFromExamples fetches freshIds dateOfJs now

/-- The history invariant of §3 of the specification: pairwise distinct
ids, with `===` as the comparison the de-duplication code itself uses. -/
def distinctIds : List Creation → Bool
  | [] => true
  | c :: rest => !(rest.any (fun d => jsStrictEq d.id c.id)) && distinctIds rest

/-! ## Helper lemmas -/

/-- `a || b` is truthy exactly when one of the operands is. -/
theorem jsOr_truthy (a b : Js) : (jsOr a b).truthy = (a.truthy || b.truthy) := by
  unfold jsOr
  by_cases h : a.truthy = true <;> simp [h]

/-- Appending to a non-empty string yields a non-empty string. -/
theorem strAppend_ne_empty (a b : String) (ha : a ≠ "") : a ++ b ≠ "" := by
  intro h
  apply ha
  have hd := congrArg String.data h
  rw [String.data_append] at hd
  have hnil : a.data = [] := (List.append_eq_nil.mp (by simpa using hd)).1
  exact String.ext (by simpa using hnil)

/-- The default html placeholder is truthy. -/
theorem truthyDefaultHtml :
    (Js.str "<!-- Failed to generate HTML -->").truthy = true := by decide

/-- The default name is truthy. -/
theorem truthyDefaultName : (Js.str "Generated UI").truthy = true := by decide

/-- Whatever the response text, the processed result has truthy html and
name fields (both fallback and defaulting branches guarantee it). -/
theorem bringToLifeParse_truthy (jsonParse : String → Option Js) (t : String) :
    (bringToLifeParse jsonParse t).html.truthy = true ∧
    (bringToLifeParse jsonParse t).name.truthy = true := by
  unfold bringToLifeParse
  split
  · refine ⟨?_, by simp [fallbackResult, Js.truthy]⟩
    simp only [fallbackResult, Js.truthy, ne_eq, decide_eq_true_eq]
    exact strAppend_ne_empty _ _ (strAppend_ne_empty _ _ (by decide))
  · simp [jsOr_truthy, truthyDefaultHtml, truthyDefaultName]
  · refine ⟨?_, by simp [fallbackResult, Js.truthy]⟩
    simp only [fallbackResult, Js.truthy, ne_eq, decide_eq_true_eq]
    exact strAppend_ne_empty _ _ (strAppend_ne_empty _ _ (by decide))

/-- `isUndefined` characterizes the `undefined` value. -/
theorem Js.isUndefined_iff (v : Js) : v.isUndefined = true ↔ v = Js.undefined := by
  cases v <;> simp [Js.isUndefined]

/-- A truthy value is not `undefined`. -/
theorem Js.truthy_not_undefined (v : Js) (h : v.truthy = true) : v.isUndefined = false := by
  cases v <;> simp_all [Js.truthy, Js.isUndefined]

/-! ## Claim C1 — upload validation -/

/-- C1, counterexample: `image/gif` lies outside the accepted MIME set of
the claim, yet a small `image/gif` file passes validation (the code only
tests the `image/` prefix; `validTypes` is dead) and, in the part_002
variant, generation is invoked for it. -/
theorem upload_gif_accepted_outside_validTypes :
    handleFile { type := "image/gif", size := 100, name := "sketch.gif" } =
      UploadOutcome.startReading ∧
    validTypes.contains "image/gif" = false ∧
    handleFileThenGenerate { type := "image/gif", size := 100, name := "sketch.gif" }
        (ReadOutcome.success "QUJD") =
      some ("", { type := "image/gif", size := 100, name := "sketch.gif" },
            { base64 := "QUJD", mimeType := "image/gif" }) := by
  refine ⟨by decide, by decide, by decide⟩

/-- C1, amended: a file whose size exceeds 10 MB, or whose MIME type
neither starts with `image/` nor equals `application/pdf`, is rejected
with an error before the file is read, and neither InputArea variant can
invoke generation for it. -/
theorem handleFile_rejects_oversize_or_nonimage (f : JsFile)
    (h : f.size > MAX_SIZE_MB * 1024 * 1024 ∨
         (jsStartsWith f.type "image/" = false ∧ f.type ≠ "application/pdf")) :
    handleFile f ≠ UploadOutcome.startReading ∧
    (∀ r, handleFileThenGenerate f r = none) ∧
    (∀ r, handleFileSelect f r = none) := by
  have hmain : handleFile f ≠ UploadOutcome.startReading := by
    unfold handleFile
    rcases h with h | ⟨h1, h2⟩
    · by_cases hI : jsStartsWith f.type "image/" <;>
        by_cases hP : f.type == "application/pdf" <;>
        simp [hI, hP, h]
    · have hP : (f.type == "application/pdf") = false := by
        simpa using h2
      simp [h1, hP]
  refine ⟨hmain, fun r => ?_, fun r => ?_⟩
  · unfold handleFileThenGenerate
    rcases hout : handleFile f with _ | _ | _ <;> simp_all
  · unfold handleFileSelect
    rcases hout : handleFile f with _ | _ | _ <;> simp_all

/-- C1, witness for the amended theorem at a 15 MB PDF and at a text file. -/
theorem handleFile_rejects_witness :
    handleFile { type := "application/pdf", size := 15728640, name := "big.pdf" } ≠
      UploadOutcome.startReading ∧
    handleFileThenGenerate { type := "text/plain", size := 10, name := "a.txt" }
      (ReadOutcome.success "eA==") = none :=
  ⟨(handleFile_rejects_oversize_or_nonimage _ (Or.inl (by decide))).1,
   (handleFile_rejects_oversize_or_nonimage _
      (Or.inr ⟨by decide, by decide⟩)).2.1 _⟩

/-! ## Claim C2 — request shape -/

/-- C2: every call to `bringToLife` issues exactly one request; its parts
are the text part (user prompt, or the file-dependent default when the
prompt is empty, followed by the framework instruction, which names the
selected framework) and then the inline-data part exactly when both
`fileBase64` and `mimeType` are supplied truthy; and the config carries
the fixed system instruction, temperature 0.2 and the JSON response MIME
type. -/
theorem bringToLife_request_shape (prompt : String)
    (fileBase64 mimeType : Option String) (framework : String)
    (jsonParse : String → Option Js) (outcome : ModelOutcome) :
    (bringToLife prompt fileBase64 mimeType framework jsonParse outcome).1 =
      [{ model := GEMINI_MODEL
       , parts :=
           RequestPart.text
             ((if prompt = "" then defaultPrompt fileBase64 else prompt) ++
               frameworkSuffix framework) ::
           (if optTruthy fileBase64 && optTruthy mimeType then
              [RequestPart.inlineData (fileBase64.getD "") (mimeType.getD "")]
            else [])
       , systemInstruction := SYSTEM_INSTRUCTION
       , temperature := 0.2
       , responseMimeType := "application/json" }] ∧
    (∃ pre post, frameworkSuffix framework = pre ++ framework ++ post) := by
  constructor
  · have hparts : bringToLifeParts prompt fileBase64 mimeType framework =
        RequestPart.text
          ((if prompt = "" then defaultPrompt fileBase64 else prompt) ++
            frameworkSuffix framework) ::
        (if optTruthy fileBase64 && optTruthy mimeType then
           [RequestPart.inlineData (fileBase64.getD "") (mimeType.getD "")]
         else []) := by
      rcases fileBase64 with _ | b <;> rcases mimeType with _ | m
      · simp [bringToLifeParts, finalPromptOf, optTruthy]
      · simp [bringToLifeParts, finalPromptOf, optTruthy]
      · simp [bringToLifeParts, finalPromptOf, optTruthy]
      · by_cases hb : b = "" <;> by_cases hm : m = "" <;>
          simp [bringToLifeParts, finalPromptOf, optTruthy, hb, hm]
    cases outcome <;> simp [bringToLife, hparts]
  · exact ⟨"\n\nIMPORTANT: Generate the code using the " ++ framework.toUpper ++
      " framework. Use the appropriate HTML scaffold for ",
      " provided in Step 4.", rfl⟩

/-! ## Claim C3 — parse-failure fallback -/

/-- C3: when the (coerced) response text fails to parse as JSON, the
result embeds the raw text verbatim in a minimal HTML document, carries
the name "Error", and has empty layout and metadata objects. -/
theorem bringToLife_parse_failure_fallback (prompt : String)
    (fileBase64 mimeType : Option String) (framework : String)
    (jsonParse : String → Option Js) (respText : Option String)
    (h : jsonParse (coerceText respText) = none) :
    (bringToLife prompt fileBase64 mimeType framework jsonParse
        (ModelOutcome.success respText)).2 =
      Except.ok
        { html := Js.str
            ("<html><body><pre>" ++ coerceText respText ++ "</pre></body></html>")
        , name := Js.str "Error"
        , layout := Js.obj []
        , metadata := Js.obj [] } := by
  simp [bringToLife, bringToLifeParse, h, fallbackResult]

/-- C3, witness: a response text that is not JSON. -/
theorem bringToLife_parse_failure_fallback_witness :
    (bringToLife "p" none none "react" (fun _ => none)
        (ModelOutcome.success (some "oops, not json"))).2 =
      Except.ok
        { html := Js.str "<html><body><pre>oops, not json</pre></body></html>"
        , name := Js.str "Error"
        , layout := Js.obj []
        , metadata := Js.obj [] } :=
  bringToLife_parse_failure_fallback "p" none none "react" (fun _ => none)
    (some "oops, not json") rfl

/-! ## Claim C8 — atomicity on generation failure -/

/-- C8: a thrown network/model error propagates out of `bringToLife`
unchanged, and `handleGenerate` catches it, fires the blocking alert, and
finishes with history unchanged, no active creation, and `isGenerating`
false. -/
theorem generate_failure_atomicity (st : AppState) (promptText : String)
    (file : Option JsFile) (fileData : Option FileData) (framework : String)
    (jsonParse : String → Option Js) (err : String)
    (fileReadBase64 freshId : String) (now : Nat) :
    (∀ fb mt : Option String,
      (bringToLife promptText fb mt framework jsonParse
          (ModelOutcome.failure err)).2 = Except.error err) ∧
    handleGenerate st promptText file fileData framework jsonParse
        (ModelOutcome.failure err) fileReadBase64 freshId now =
      ({ activeCreation := none, isGenerating := false,
         history := st.history }, true) := by
  constructor
  · intro fb mt
    simp [bringToLife]
  · simp [handleGenerate, bringToLife]

/-! ## Claim C9 — field extraction from valid JSON -/

/-- Parse function used in concrete runs: maps the four-character text
"null" to JSON `null` and rejects everything else (as `JSON.parse` does
on these inputs). -/
def parseNullOnly : String → Option Js :=
  fun s => if s = "null" then some Js.null else none

/-- C9, counterexample: the response text "null" parses as valid JSON,
but instead of the all-defaults extraction the claim promises, the
result is the "Error" fallback — `parsed.html` throws a `TypeError` on
`null` inside the same `try` block. -/
theorem bringToLife_null_json_error_fallback :
    parseNullOnly "null" = some Js.null ∧
    (bringToLife "p" none none "react" parseNullOnly
        (ModelOutcome.success (some "null"))).2 =
      Except.ok
        { html := Js.str "<html><body><pre>null</pre></body></html>"
        , name := Js.str "Error"
        , layout := Js.obj []
        , metadata := Js.obj [] } :=
  ⟨rfl, rfl⟩

/-- C9, amended: for every response whose (coerced) text parses as valid
JSON other than `null`, each of html/name/layout/metadata is the parsed
field of the parsed object when it is present and truthy, and the fixed
default otherwise; a text parsing to JSON `null` yields the "Error"
fallback instead. -/
theorem bringToLife_valid_json_fields (prompt : String)
    (fileBase64 mimeType : Option String) (framework : String)
    (jsonParse : String → Option Js) (respText : Option String) (parsed : Js)
    (hp : jsonParse (coerceText respText) = some parsed)
    (hnn : parsed ≠ Js.null) :
    (bringToLife prompt fileBase64 mimeType framework jsonParse
        (ModelOutcome.success respText)).2 =
      Except.ok
        { html := if (parsed.get "html").truthy then parsed.get "html"
                  else Js.str "<!-- Failed to generate HTML -->"
        , name := if (parsed.get "name").truthy then parsed.get "name"
                  else Js.str "Generated UI"
        , layout := if (parsed.get "layout").truthy then parsed.get "layout"
                    else Js.obj []
        , metadata := if (parsed.get "metadata").truthy then parsed.get "metadata"
                      else Js.obj [] } := by
  cases parsed <;>
    simp_all [bringToLife, bringToLifeParse, jsOr]

/-- Parse function returning a fixed object with only an html field. -/
def parseObjHtml : String → Option Js :=
  fun _ => some (Js.obj [("html", Js.str "<div/>")])

/-- C9, witness: a response carrying only an html field keeps it and
defaults the other three fields. -/
theorem bringToLife_valid_json_fields_witness :
    (bringToLife "p" none none "react" parseObjHtml
        (ModelOutcome.success (some "x"))).2 =
      Except.ok
        { html := Js.str "<div/>"
        , name := Js.str "Generated UI"
        , layout := Js.obj []
        , metadata := Js.obj [] } := by
  have h := bringToLife_valid_json_fields "p" none none "react" parseObjHtml
    (some "x") (Js.obj [("html", Js.str "<div/>")]) rfl
    (fun hEq => Js.noConfusion hEq)
  simpa [Js.get, Js.truthy] using h

/-! ## Claim C10 — totality of the result -/

/-- Parse function recognizing "null" and the empty object literal (as
`JSON.parse` does on these inputs), rejecting everything else. -/
def parseNullAndEmptyObj : String → Option Js :=
  fun s =>
    if s = "null" then some Js.null
    else if s = "\x7b\x7d" then some (Js.obj [])
    else none

/-- C10, counterexample: the non-empty response text "null" parses as
valid JSON, yet the "Error" fallback branch is taken — refuting the
clause "only when a non-empty response text fails to parse as JSON"
of the claim. -/
theorem bringToLife_fallback_despite_valid_json :
    parseNullAndEmptyObj "null" = some Js.null ∧
    (bringToLife "q" none none "vue" parseNullAndEmptyObj
        (ModelOutcome.success (some "null"))).2 =
      Except.ok (fallbackResult "null") ∧
    (fallbackResult "null").name = Js.str "Error" :=
  ⟨rfl, rfl, rfl⟩

/-- C10, amended: (i) an absent or empty response text is coerced to the
empty-object literal and yields the all-defaults result; (ii) whenever
`bringToLife` returns, both html and name are truthy (for strings:
non-empty); (iii) the fallback cases (text failing to parse, or parsing
to JSON `null` — whose property access throws into the same catch) can
only arise from a genuinely supplied, non-empty response text. -/
theorem bringToLife_total_result (prompt : String)
    (fileBase64 mimeType : Option String) (framework : String)
    (jsonParse : String → Option Js) (respText : Option String)
    (hEmptyObj : jsonParse "\x7b\x7d" = some (Js.obj [])) :
    ((respText = none ∨ respText = some "") →
      (bringToLife prompt fileBase64 mimeType framework jsonParse
          (ModelOutcome.success respText)).2 =
        Except.ok
          { html := Js.str "<!-- Failed to generate HTML -->"
          , name := Js.str "Generated UI"
          , layout := Js.obj []
          , metadata := Js.obj [] }) ∧
    (∀ r, (bringToLife prompt fileBase64 mimeType framework jsonParse
          (ModelOutcome.success respText)).2 = Except.ok r →
        r.html.truthy = true ∧ r.name.truthy = true) ∧
    ((jsonParse (coerceText respText) = none ∨
      jsonParse (coerceText respText) = some Js.null) →
      ∃ s, respText = some s ∧ s ≠ "" ∧ coerceText respText = s) := by
  refine ⟨?_, ?_, ?_⟩
  · intro hrt
    have ht : coerceText respText = "\x7b\x7d" := by
      rcases hrt with rfl | rfl <;> rfl
    have hrun : (bringToLife prompt fileBase64 mimeType framework jsonParse
        (ModelOutcome.success respText)).2 =
        Except.ok (bringToLifeParse jsonParse (coerceText respText)) := by
      simp [bringToLife]
    rw [hrun, ht]
    unfold bringToLifeParse
    rw [hEmptyObj]
    rfl
  · rintro r hr
    have hr2 : bringToLifeParse jsonParse (coerceText respText) = r := by
      simpa [bringToLife] using hr
    rw [← hr2]
    exact bringToLifeParse_truthy jsonParse (coerceText respText)
  · intro hbad
    rcases hrt : respText with _ | s
    · exfalso
      rcases hbad with h | h <;> rw [hrt] at h <;>
        simp [coerceText, hEmptyObj] at h
    · by_cases hs : s = ""
      · exfalso
        subst hs
        rcases hbad with h | h <;> rw [hrt] at h <;>
          simp [coerceText, hEmptyObj] at h
      · exact ⟨s, rfl, hs, by simp [coerceText, hs]⟩

/-- C10, witness: with no response text at all, the result is the
all-defaults object (html and name non-empty). -/
theorem bringToLife_total_result_witness :
    (bringToLife "q" none none "vue" parseNullAndEmptyObj
        (ModelOutcome.success none)).2 =
      Except.ok
        { html := Js.str "<!-- Failed to generate HTML -->"
        , name := Js.str "Generated UI"
        , layout := Js.obj []
        , metadata := Js.obj [] } :=
  (bringToLife_total_result "q" none none "vue" parseNullAndEmptyObj none
    rfl).1 (Or.inl rfl)

/-! ## Claim C4 — creation built from a valid-JSON response -/

/-- On a successful network call, the returned value is the processed
coerced response text, whatever the request arguments were. -/
theorem bringToLife_snd_success (prompt : String)
    (fileBase64 mimeType : Option String) (framework : String)
    (jsonParse : String → Option Js) (respText : Option String) :
    (bringToLife prompt fileBase64 mimeType framework jsonParse
        (ModelOutcome.success respText)).2 =
      Except.ok (bringToLifeParse jsonParse (coerceText respText)) := by
  simp [bringToLife]

/-- Field extraction of `bringToLifeParse` once the parse result is known
to be a non-null JSON value. -/
theorem bringToLifeParse_eq_of_parse (jsonParse : String → Option Js)
    (t : String) (parsed : Js) (hp : jsonParse t = some parsed)
    (hnn : parsed ≠ Js.null) :
    bringToLifeParse jsonParse t =
      { html := jsOr (parsed.get "html") (Js.str "<!-- Failed to generate HTML -->")
      , name := jsOr (parsed.get "name") (Js.str "Generated UI")
      , layout := jsOr (parsed.get "layout") (Js.obj [])
      , metadata := jsOr (parsed.get "metadata") (Js.obj []) } := by
  unfold bringToLifeParse
  rw [hp]
  cases parsed <;> first | exact absurd rfl hnn | rfl

/-- `isStr` characterizes the string values. -/
theorem Js.isStr_iff (v : Js) : v.isStr = true ↔ ∃ s, v = Js.str s := by
  cases v <;> simp [Js.isStr]

/-- When the generation result has truthy html, `handleGenerate` activates
and prepends the `generatedCreation` and reports no alert. -/
theorem handleGenerate_ok (st : AppState) (promptText : String)
    (file : Option JsFile) (fileData : Option FileData) (framework : String)
    (jsonParse : String → Option Js) (outcome : ModelOutcome)
    (fileReadBase64 freshId : String) (now : Nat) (result : GenerationResult)
    (hres : (bringToLife promptText (pickedBase64 fileData file fileReadBase64)
        (pickedMime fileData file) framework jsonParse outcome).2 =
        Except.ok result)
    (hhtml : result.html.truthy = true) :
    handleGenerate st promptText file fileData framework jsonParse outcome
        fileReadBase64 freshId now =
      ({ activeCreation := some (generatedCreation result file
            (pickedBase64 fileData file fileReadBase64)
            (pickedMime fileData file) freshId now)
       , isGenerating := false
       , history := generatedCreation result file
            (pickedBase64 fileData file fileReadBase64)
            (pickedMime fileData file) freshId now :: st.history }, false) := by
  unfold handleGenerate
  rw [hres]
  simp [hhtml]

/-- Parse function returning an object whose html field is the number 5. -/
def parseHtmlNum : String → Option Js :=
  fun _ => some (Js.obj [("html", Js.num 5)])

/-- C4, counterexample: a response whose text parses as the valid JSON
object with html equal to the number 5 produces a Creation whose html is
that number — truthy, hence prepended, but not a string, refuting the
claim\x27s "non-empty html string". -/
theorem handleGenerate_nonstring_html_cex :
    parseHtmlNum "x" = some (Js.obj [("html", Js.num 5)]) ∧
    ((handleGenerate { activeCreation := none, isGenerating := false, history := [] }
        "p" none none "react" parseHtmlNum (ModelOutcome.success (some "x"))
        "" "id-1" 0).1.history.map (fun c => c.html)) = [Js.num 5] ∧
    (Js.num 5).isStr = false := by
  refine ⟨rfl, rfl, rfl⟩

/-- C4, amended: for a response parsing as valid JSON other than `null`,
and a fresh random id absent from history, `handleGenerate` prepends one
new Creation carrying that id; its html is truthy, and it is a non-empty
string whenever the parsed object\x27s html field is a string or not
truthy (a truthy non-string html field is carried over as-is instead). -/
theorem handleGenerate_valid_json_prepends_fresh (st : AppState)
    (promptText : String) (file : Option JsFile) (fileData : Option FileData)
    (framework : String) (jsonParse : String → Option Js)
    (respText : Option String) (parsed : Js)
    (fileReadBase64 freshId : String) (now : Nat)
    (hp : jsonParse (coerceText respText) = some parsed)
    (hnn : parsed ≠ Js.null)
    (hstr : (parsed.get "html").isStr = true ∨ (parsed.get "html").truthy = false)
    (hfresh : st.history.any (fun d => jsStrictEq d.id (Js.str freshId)) = false) :
    ∃ c hs,
      (handleGenerate st promptText file fileData framework jsonParse
          (ModelOutcome.success respText) fileReadBase64 freshId now).1.history =
        c :: st.history ∧
      c.id = Js.str freshId ∧
      st.history.any (fun d => jsStrictEq d.id c.id) = false ∧
      c.html = Js.str hs ∧ hs ≠ "" := by
  have hres : (bringToLife promptText (pickedBase64 fileData file fileReadBase64)
      (pickedMime fileData file) framework jsonParse
      (ModelOutcome.success respText)).2 =
      Except.ok
        { html := jsOr (parsed.get "html") (Js.str "<!-- Failed to generate HTML -->")
        , name := jsOr (parsed.get "name") (Js.str "Generated UI")
        , layout := jsOr (parsed.get "layout") (Js.obj [])
        , metadata := jsOr (parsed.get "metadata") (Js.obj []) } := by
    rw [bringToLife_snd_success, bringToLifeParse_eq_of_parse jsonParse _ parsed hp hnn]
  obtain ⟨s, hsne, hOr⟩ :
      ∃ s, s ≠ "" ∧
        jsOr (parsed.get "html") (Js.str "<!-- Failed to generate HTML -->") =
          Js.str s := by
    rcases hstr with hS | hF
    · obtain ⟨s, hget⟩ := (Js.isStr_iff _).mp hS
      by_cases hT : (parsed.get "html").truthy = true
      · have hT2 : (Js.str s).truthy = true := hget ▸ hT
        exact ⟨s, by simpa [Js.truthy] using hT2, by simp [jsOr, hget, hT2]⟩
      · have hT2 : (parsed.get "html").truthy = false := by
          simpa using hT
        exact ⟨"<!-- Failed to generate HTML -->", by decide, by simp [jsOr, hT2]⟩
    · exact ⟨"<!-- Failed to generate HTML -->", by decide, by simp [jsOr, hF]⟩
  have hT3 : (jsOr (parsed.get "html")
      (Js.str "<!-- Failed to generate HTML -->")).truthy = true := by
    rw [hOr]
    simpa [Js.truthy] using hsne
  have hmain := handleGenerate_ok st promptText file fileData framework
    jsonParse (ModelOutcome.success respText) fileReadBase64 freshId now _ hres hT3
  rw [hmain]
  exact ⟨_, s, rfl, rfl, hfresh, hOr, hsne⟩

/-- Parse function returning an object with string html and name. -/
def parseObjFull : String → Option Js :=
  fun _ => some (Js.obj [("html", Js.str "<p>hi</p>"), ("name", Js.str "Card")])

/-- C4, witness: a well-formed JSON response prepends a creation with the
fresh id and a non-empty html string onto the empty history. -/
theorem handleGenerate_valid_json_prepends_fresh_witness :
    ∃ c hs,
      (handleGenerate { activeCreation := none, isGenerating := false, history := [] }
          "p" none none "react" parseObjFull (ModelOutcome.success (some "x"))
          "" "id-9" 7).1.history = c :: [] ∧
      c.id = Js.str "id-9" ∧
      ([] : List Creation).any (fun d => jsStrictEq d.id c.id) = false ∧
      c.html = Js.str hs ∧ hs ≠ "" :=
  handleGenerate_valid_json_prepends_fresh
    { activeCreation := none, isGenerating := false, history := [] }
    "p" none none "react" parseObjFull (some "x")
    (Js.obj [("html", Js.str "<p>hi</p>"), ("name", Js.str "Card")])
    "" "id-9" 7 rfl (fun h => Js.noConfusion h) (Or.inl rfl) rfl

/-! ## Claim C6 — import validation, defaulting, de-duplication -/

/-- C6: `handleImportFile` (a) alerts and leaves the state unchanged when
the file fails JSON parsing (or parses to `null`, whose property access
throws into the same catch); (b) alerts and leaves the state unchanged
when html or name is missing or falsy; (c) otherwise builds the imported
creation, defaulting a fresh id exactly when the stored id is falsy (in
particular when absent), activates it, and prepends it to history unless
an entry with the same id already exists, in which case history is
untouched. -/
theorem handleImportFile_spec (st : AppState) (fileText : String)
    (jsonParse : String → Option Js) (freshId : String)
    (dateOfJs : Js → Nat) (now : Nat) :
    (jsonParse fileText = none →
      handleImportFile st fileText jsonParse freshId dateOfJs now = (st, true)) ∧
    (jsonParse fileText = some Js.null →
      handleImportFile st fileText jsonParse freshId dateOfJs now = (st, true)) ∧
    (∀ parsed, jsonParse fileText = some parsed → parsed ≠ Js.null →
      (((parsed.get "html").truthy = false ∨ (parsed.get "name").truthy = false) →
        handleImportFile st fileText jsonParse freshId dateOfJs now = (st, true)) ∧
      ((parsed.get "html").truthy = true → (parsed.get "name").truthy = true →
        (handleImportFile st fileText jsonParse freshId dateOfJs now).2 = false ∧
        (handleImportFile st fileText jsonParse freshId dateOfJs now).1.activeCreation =
          some (importedCreation parsed freshId dateOfJs now) ∧
        (importedCreation parsed freshId dateOfJs now).id =
          jsOr (parsed.get "id") (Js.str freshId) ∧
        (parsed.get "id" = Js.undefined →
          (importedCreation parsed freshId dateOfJs now).id = Js.str freshId) ∧
        (st.history.any (fun c =>
            jsStrictEq c.id (importedCreation parsed freshId dateOfJs now).id) = true →
          (handleImportFile st fileText jsonParse freshId dateOfJs now).1.history =
            st.history) ∧
        (st.history.any (fun c =>
            jsStrictEq c.id (importedCreation parsed freshId dateOfJs now).id) = false →
          (handleImportFile st fileText jsonParse freshId dateOfJs now).1.history =
            importedCreation parsed freshId dateOfJs now :: st.history))) := by
  refine ⟨?_, ?_, ?_⟩
  · intro hp
    unfold handleImportFile
    rw [hp]
  · intro hp
    unfold handleImportFile
    rw [hp]
  · intro parsed hp hnn
    have hrw : handleImportFile st fileText jsonParse freshId dateOfJs now =
        (if (parsed.get "html").truthy && (parsed.get "name").truthy then
          ({ st with
               history :=
                 if st.history.any (fun c =>
                      jsStrictEq c.id (importedCreation parsed freshId dateOfJs now).id)
                 then st.history
                 else importedCreation parsed freshId dateOfJs now :: st.history
             , activeCreation := some (importedCreation parsed freshId dateOfJs now) },
            false)
         else (st, true)) := by
      unfold handleImportFile
      rw [hp]
      cases parsed <;> first | exact absurd rfl hnn | rfl
    constructor
    · intro hbad
      rw [hrw]
      rcases hbad with hbad | hbad <;> simp [hbad]
    · intro hh hn
      have hcond : ((parsed.get "html").truthy && (parsed.get "name").truthy) = true := by
        rw [hh, hn]
        rfl
      rw [hrw, if_pos hcond]
      refine ⟨rfl, rfl, rfl, ?_, ?_, ?_⟩
      · intro hid
        simp [importedCreation, jsOr, hid, Js.truthy]
      · intro hex
        simp [hex]
      · intro hex
        simp [hex]

/-- C6, witness: a file that fails JSON parsing alerts and leaves the
(empty-history) state unchanged. -/
theorem handleImportFile_spec_witness :
    handleImportFile { activeCreation := none, isGenerating := false, history := [] }
        "not json" (fun _ => none) "fid" (fun _ => 0) 0 =
      ({ activeCreation := none, isGenerating := false, history := [] }, true) :=
  (handleImportFile_spec { activeCreation := none, isGenerating := false, history := [] }
    "not json" (fun _ => none) "fid" (fun _ => 0) 0).1 rfl

/-! ## Claim C5 — export/import round-trip -/

/-- Reading the fields of the exported JSON object: when id, name and
html are
not `undefined` (truthy fields always are), each of the five claimed
fields is recovered exactly — `layout`/`metadata` also when they were
`undefined` and hence dropped by `JSON.stringify`, since the re-read then
yields `undefined` again. -/
theorem handleExportJSON_get (c : Creation)
    (hid : c.id.isUndefined = false) (hname : c.name.isUndefined = false)
    (hhtml : c.html.isUndefined = false) :
    (handleExportJSON c).get "id" = c.id ∧
    (handleExportJSON c).get "name" = c.name ∧
    (handleExportJSON c).get "html" = c.html ∧
    (handleExportJSON c).get "layout" = c.layout ∧
    (handleExportJSON c).get "metadata" = c.metadata := by
  cases h4 : c.layout.isUndefined <;>
    cases h5 : c.metadata.isUndefined <;>
    cases h6 : c.originalImage.isUndefined <;>
    (try rw [Js.isUndefined_iff] at h4) <;>
    (try rw [Js.isUndefined_iff] at h5) <;>
    (try rw [Js.isUndefined_iff] at h6) <;>
    simp_all [handleExportJSON, Js.get, List.lookup, Js.isUndefined]

/-- The creation whose export the C5 counterexample re-imports: non-empty
html and name, but the empty string as id. -/
def creationEmptyId : Creation :=
  { id := Js.str ""
  , name := Js.str "Old"
  , html := Js.str "<p>x</p>"
  , layout := Js.obj []
  , metadata := Js.obj []
  , originalImage := Js.undefined
  , timestamp := 0 }

/-- Parse function returning the parsed export of `creationEmptyId` (the
`JSON.parse ∘ JSON.stringify` builtin round-trip on that value). -/
def parseExportEmptyId : String → Option Js :=
  fun _ => some (handleExportJSON creationEmptyId)

/-- C5, counterexample: a Creation with non-empty html and name but a
falsy (empty-string) id does not round-trip — the import assigns a fresh
random id, so the re-imported Creation differs from the original in more
than the timestamp. -/
theorem export_import_empty_id_cex :
    creationEmptyId.html = Js.str "<p>x</p>" ∧
    creationEmptyId.name = Js.str "Old" ∧
    creationEmptyId.id = Js.str "" ∧
    ((handleImportFile { activeCreation := none, isGenerating := false, history := [] }
        "f.json" parseExportEmptyId "fresh-uuid" (fun _ => 0) 0).1.activeCreation.map
      (fun c => c.id)) = some (Js.str "fresh-uuid") ∧
    ("fresh-uuid" : String) ≠ "" :=
  ⟨rfl, rfl, rfl, rfl, by decide⟩

/-- C5, amended: for every Creation with truthy (non-empty) html, name
and — additionally to the claim — a truthy id, importing the parsed
export yields a Creation with the same html, name, layout, metadata and
id, differing at most in the timestamp normalization; with a falsy id the
the importing code substitutes a fresh one.  (Every Creation the application itself
constructs has a truthy id.) -/
theorem export_import_roundtrip (st : AppState) (c : Creation)
    (fileText freshId : String) (jsonParse : String → Option Js)
    (dateOfJs : Js → Nat) (now : Nat)
    (hparse : jsonParse fileText = some (handleExportJSON c))
    (hhtml : c.html.truthy = true) (hname : c.name.truthy = true)
    (hid : c.id.truthy = true) :
    ∃ imported,
      (handleImportFile st fileText jsonParse freshId dateOfJs now).1.activeCreation =
        some imported ∧
      imported.html = c.html ∧
      imported.name = c.name ∧
      imported.layout = c.layout ∧
      imported.metadata = c.metadata ∧
      imported.id = c.id := by
  obtain ⟨gid, gname, ghtml, glayout, gmeta⟩ :=
    handleExportJSON_get c (Js.truthy_not_undefined _ hid)
      (Js.truthy_not_undefined _ hname) (Js.truthy_not_undefined _ hhtml)
  have hobj : handleExportJSON c ≠ Js.null := by
    intro h
    exact Js.noConfusion (handleExportJSON.eq_def c ▸ h)
  have hspec := (handleImportFile_spec st fileText jsonParse freshId dateOfJs
    now).2.2 (handleExportJSON c) hparse hobj
  have hacc := hspec.2 (by rw [ghtml]; exact hhtml) (by rw [gname]; exact hname)
  refine ⟨importedCreation (handleExportJSON c) freshId dateOfJs now,
    hacc.2.1, ?_, ?_, ?_, ?_, ?_⟩
  · simpa [importedCreation] using ghtml
  · simpa [importedCreation] using gname
  · simpa [importedCreation] using glayout
  · simpa [importedCreation] using gmeta
  · have hpr : (importedCreation (handleExportJSON c) freshId dateOfJs now).id =
        jsOr ((handleExportJSON c).get "id") (Js.str freshId) := rfl
    rw [hpr, gid]
    simp [jsOr, hid]

/-- A concrete well-formed creation for the C5 witness. -/
def creationRoundtrip : Creation :=
  { id := Js.str "a1"
  , name := Js.str "Card"
  , html := Js.str "<p>x</p>"
  , layout := Js.obj [("type", Js.str "root")]
  , metadata := Js.obj []
  , originalImage := Js.undefined
  , timestamp := 5 }

/-- Parse function returning the parsed export of `creationRoundtrip`. -/
def parseExportRoundtrip : String → Option Js :=
  fun _ => some (handleExportJSON creationRoundtrip)

/-- C5, witness: the concrete creation round-trips through export and
re-import with html, name, layout, metadata and id preserved. -/
theorem export_import_roundtrip_witness :
    ∃ imported,
      (handleImportFile { activeCreation := none, isGenerating := false, history := [] }
          "art.json" parseExportRoundtrip "fresh-9" (fun _ => 0) 11).1.activeCreation =
        some imported ∧
      imported.html = creationRoundtrip.html ∧
      imported.name = creationRoundtrip.name ∧
      imported.layout = creationRoundtrip.layout ∧
      imported.metadata = creationRoundtrip.metadata ∧
      imported.id = creationRoundtrip.id :=
  export_import_roundtrip
    { activeCreation := none, isGenerating := false, history := [] }
    creationRoundtrip "art.json" "fresh-9" parseExportRoundtrip (fun _ => 0) 11
    rfl (by decide) (by decide) (by decide)

/-! ## Claim C7 — uniqueness of history ids -/

/-- Pairwise distinctness (under `===`) of a list of JavaScript values. -/
def pairwiseDistinctJs : List Js → Bool
  | [] => true
  | x :: rest => !(rest.any (fun y => jsStrictEq y x)) && pairwiseDistinctJs rest

/-- The ids the example-seeding branch would give its creations: the
own id of the fixture when truthy, else the fresh random id drawn for
it. -/
def seededIds (fetches : List FetchOutcome) (freshIds : List String) : List Js :=
  (fetches.zip freshIds).filterMap (fun p =>
    match p.1 with
    | .ok d => some (jsOr (d.get "id") (Js.str p.2))
    | _ => none)

/-- `any` over the projected ids agrees with `any` over the creations. -/
theorem anyIds_map (l : List Creation) (x : Js) :
    (l.map (fun c => c.id)).any (fun y => jsStrictEq y x) =
      l.any (fun d => jsStrictEq d.id x) := by
  induction l with
  | nil => rfl
  | cons a tl ih => simp [List.any_cons, ih]

/-- `distinctIds` is pairwise distinctness of the id projections. -/
theorem distinctIds_eq_pairwise (l : List Creation) :
    distinctIds l = pairwiseDistinctJs (l.map (fun c => c.id)) := by
  induction l with
  | nil => rfl
  | cons c rest ih =>
    simp [distinctIds, pairwiseDistinctJs, ih, anyIds_map]

/-- The id of a seeded creation is the id of the fixture defaulted to the
fresh one. -/
theorem exampleCreation_id (d : Js) (fid : String) (dateOfJs : Js → Nat)
    (now : Nat) :
    (exampleCreation d fid dateOfJs now).id = jsOr (d.get "id") (Js.str fid) :=
  rfl

/-- The ids of the seeded creations are exactly `seededIds`. -/
theorem seed_ids_eq (l : List (FetchOutcome × String)) (dateOfJs : Js → Nat)
    (now : Nat) :
    (l.filterMap (fun p =>
        match p.1 with
        | FetchOutcome.ok d => some (exampleCreation d p.2 dateOfJs now)
        | _ => none)).map (fun c => c.id) =
      l.filterMap (fun p =>
        match p.1 with
        | FetchOutcome.ok d => some (jsOr (d.get "id") (Js.str p.2))
        | _ => none) := by
  induction l with
  | nil => rfl
  | cons hd tl ih =>
    rcases hd with ⟨f, fid⟩
    cases f <;> simp [List.filterMap_cons, exampleCreation_id, ih]

/-- C7, counterexample: two example fixtures carrying the same id seed a
history with duplicate ids — `initHistory` performs no de-duplication, so
the claimed invariant fails in this reachable state. -/
theorem seed_duplicate_ids_cex :
    distinctIds (seedHistoryFromExamples
      [FetchOutcome.ok (Js.obj [("id", Js.str "dup")]),
       FetchOutcome.ok (Js.obj [("id", Js.str "dup")])]
      ["u1", "u2"] (fun _ => 0) 0) = false ∧
    distinctIds (initHistory none (fun _ => none)
      [FetchOutcome.ok (Js.obj [("id", Js.str "dup")]),
       FetchOutcome.ok (Js.obj [("id", Js.str "dup")])]
      ["u1", "u2"] (fun _ => 0) 0) = false :=
  ⟨rfl, rfl⟩

/-- C7, amended: on a history with pairwise-distinct ids, generation
preserves distinctness provided the freshly drawn random id does not
already occur; import preserves it unconditionally (its own id check
covers both stored and freshly assigned ids); and seeding from the
example fixtures — which de-duplicates nothing — produces pairwise
distinct ids exactly when the defaulted fixture ids are pairwise
distinct. -/
theorem distinctIds_preserved (st : AppState) :
    (∀ promptText file fileData framework jsonParse outcome
        fileReadBase64 freshId now,
      distinctIds st.history = true →
      st.history.any (fun d => jsStrictEq d.id (Js.str freshId)) = false →
      distinctIds (handleGenerate st promptText file fileData framework
          jsonParse outcome fileReadBase64 freshId now).1.history = true) ∧
    (∀ fileText jsonParse freshId dateOfJs now,
      distinctIds st.history = true →
      distinctIds (handleImportFile st fileText jsonParse freshId
          dateOfJs now).1.history = true) ∧
    (∀ fetches freshIds dateOfJs now,
      pairwiseDistinctJs (seededIds fetches freshIds) = true →
      distinctIds (seedHistoryFromExamples fetches freshIds dateOfJs now) = true) := by
  refine ⟨?_, ?_, ?_⟩
  · intro promptText file fileData framework jsonParse outcome
      fileReadBase64 freshId now hdist hfresh
    unfold handleGenerate
    rcases hres : (bringToLife promptText (pickedBase64 fileData file fileReadBase64)
        (pickedMime fileData file) framework jsonParse outcome).2 with r | r
    · simpa [distinctIds] using hdist
    · by_cases hb : r.html.truthy = true
      · simp only [hb, if_true]
        simpa [distinctIds, generatedCreation, hfresh] using hdist
      · have hb2 : r.html.truthy = false := by simpa using hb
        simpa [hb2, distinctIds] using hdist
  · intro fileText jsonParse freshId dateOfJs now hdist
    unfold handleImportFile
    rcases hp : jsonParse fileText with _ | v
    · exact hdist
    · cases v <;>
        first
        | exact hdist
        | · rename_i payload
            by_cases hcond : ((Js.obj payload).get "html").truthy &&
                ((Js.obj payload).get "name").truthy
            · simp only [hcond, if_true]
              by_cases hex : st.history.any (fun c =>
                  jsStrictEq c.id (importedCreation (Js.obj payload) freshId dateOfJs now).id) = true
              · simpa [hex] using hdist
              · have hex2 : st.history.any (fun c =>
                    jsStrictEq c.id (importedCreation (Js.obj payload) freshId dateOfJs now).id) = false := by
                  simpa using hex
                simp [hex2, distinctIds, hdist]
            · have hcond2 : (((Js.obj payload).get "html").truthy &&
                  ((Js.obj payload).get "name").truthy) = false := by
                simpa using hcond
              simp [hcond2, hdist]
  · intro fetches freshIds dateOfJs now hpair
    unfold seedHistoryFromExamples
    by_cases hf : seedFails fetches = true
    · simp [hf, distinctIds]
    · have hf2 : seedFails fetches = false := by simpa using hf
      rw [if_neg (by simp [hf2])]
      rw [distinctIds_eq_pairwise, seed_ids_eq]
      exact hpair

/-- C7, witness: import on the empty history keeps the invariant. -/
theorem distinctIds_preserved_witness :
    distinctIds (handleImportFile
        { activeCreation := none, isGenerating := false, history := [] }
        "x" (fun _ => none) "f" (fun _ => 0) 0).1.history = true :=
  (distinctIds_preserved
    { activeCreation := none, isGenerating := false, history := [] }).2.1
    "x" (fun _ => none) "f" (fun _ => 0) 0 rfl
